import Mathlib

/-! The `BlogCard` sample module (`src/Transpiler/transpiler/sample.js`)

The module consists of two import declarations and one function declaration,
`BlogCard`, whose body returns a single JSX expression.  The development below

* embeds the module as data: its import declarations and the JSX expression
  returned by `BlogCard`, attribute for attribute and child for child;
* gives the JSX expression its meaning: evaluating it against a host yields
  a tree of elements (element type, props, children), threading the host
  state through every sub-evaluation;
* states and proves the properties of the tree that `BlogCard()` returns, and
  of the module's import declarations.

Number literals of the source (`1`, `2`, `600`) are natural numbers.
-/

namespace Transpiler

/-! ## Source language -/

/-- JavaScript expressions that can stand inside a JSX expression container
`{ ... }`: string, number and object literals, identifier references and
function calls. -/
inductive JSExpr where
  | str (s : String)
  | num (n : Nat)
  | obj (fields : List (String × JSExpr))
  | ident (name : String)
  | call (callee : JSExpr) (args : List JSExpr)

/-- Value of a JSX attribute: a string literal (`alt = "leaves"`) or an
expression container (`margin = {1}`). -/
inductive JSXAttrValue where
  | lit (s : String)
  | expr (e : JSExpr)

/-- JSX nodes: an element with its tag, attributes and children, a piece of
JSX text, or an expression container used as a child. -/
inductive JSXNode where
  | element (tag : String) (attrs : List (String × JSXAttrValue)) (children : List JSXNode)
  | text (s : String)
  | expr (e : JSExpr)

/-- An import declaration: `import dflt, {n1, n2, ...} from 'source'`.  The
named specifiers are kept in source order, repetitions included. -/
structure ImportDecl where
  defaultName : Option String
  named : List String
  source : String

/-- A function declaration `function name(params){ return (body) }`. -/
structure FunctionDecl where
  name : String
  params : List String
  body : JSXNode

/-- A module: its import declarations and its function declarations. -/
structure Module where
  imports : List ImportDecl
  functions : List FunctionDecl

/-! ## The module `sample.js` -/

/-- First declaration of the module:
`import {Card, Stack, CardMedia, Stack, CardContent, Stack, Typography,
Typography, Stack, CardActions, IconButton, Icon} from '@mui/material'`
(line broken here only). -/
def muiImport : ImportDecl where
  defaultName := none
  named := ["Card", "Stack", "CardMedia", "Stack", "CardContent", "Stack", "Typography",
    "Typography", "Stack", "CardActions", "IconButton", "Icon"]
  source := "@mui/material"

/-- Second declaration: `import AuthorDetails from './AuthorDetails'`. -/
def authorDetailsImport : ImportDecl where
  defaultName := some "AuthorDetails"
  named := []
  source := "./AuthorDetails"

/-- The function `BlogCard`: no parameters, and the JSX expression it returns. -/
def BlogCard : FunctionDecl where
  name := "BlogCard"
  params := []
  body :=
    .element "Card"
      [("sx", .expr (.obj [("width", .str "900px"), ("height", .str "360px"),
          ("display", .str "grid"), ("placeItems", .str "center"),
          ("borderRadius", .str "20px")]))]
      [.element "Stack"
        [("margin", .expr (.num 1)), ("spacing", .expr (.num 2)), ("direction", .lit "row"),
         ("sx", .expr (.obj [("alignItems", .str "center"), ("width", .str "calc(100% - 1rem)"),
            ("height", .str "calc(100% - 1rem)")]))]
        [.element "CardMedia"
          [("component", .lit "img"),
           ("src", .lit "https://images.unsplash.com/photo-1505807557511-bc38492556a6"),
           ("alt", .lit "leaves"),
           ("sx", .expr (.obj [("height", .str "340px"), ("borderRadius", .str "16px"),
              ("aspectRatio", .str "4/3")]))]
          [],
         .element "Stack"
          [("sx", .expr (.obj [("height", .str "100%"),
              ("justifyContent", .str "space-around")]))]
          [.element "CardContent" []
            [.element "Stack" [("spacing", .expr (.num 2))]
              [.element "Typography"
                [("fontWeight", .expr (.num 600)), ("fontSize", .lit "1.3rem")]
                [.text "Green plants are going to extinct about 500 times faster than they should, study finds"],
               .element "Typography" []
                [.text "Lorem ipsum dolor sit amet, consectetur adipiscing elit. Aenean sit amet efficitur sem, id blandit justo."]]],
           .element "Stack"
            [("direction", .lit "row"),
             ("sx", .expr (.obj [("justifyContent", .str "space-between")]))]
            [.element "AuthorDetails"
              [("authorImageSource", .lit "https://images.unsplash.com/photo-1494790108377-be9c29b29330"),
               ("authorName", .lit "Remy Sharp"),
               ("dateOfPublication", .lit "July 22, 2022")]
              [],
             .element "CardActions" []
              [.element "IconButton" [("aria-label", .lit "share")]
                [.element "Icon" [] [.text "share"]]]]]]]

/-- The module `sample.js`. -/
def sample : Module where
  imports := [muiImport, authorDetailsImport]
  functions := [BlogCard]

/-! ## Values and element trees -/

/-- Run-time values: strings, numbers, objects, functions of the host (known
only by a reference), the value an import binding stands for (named by the
module it comes from and the exported name), and `undefined`. -/
inductive Value where
  | str (s : String)
  | num (n : Nat)
  | obj (fields : List (String × Value))
  | func (ref : Nat)
  | imported (source : String) (exportName : String)
  | undefined

/-- The tree a JSX expression evaluates to.  An element records the tag as
written, the value the tag resolved to (its element type), its props in
source order and its children in source order. -/
inductive Tree where
  | element (tag : String) (type : Value) (props : List (String × Value)) (children : List Tree)
  | text (s : String)
  | value (v : Value)

/-- What the host contributes to an evaluation, over host states `σ`: the
value of a free identifier in a state, and the effect of calling a value on
arguments (a result and a new state). `none` is a thrown error. -/
structure HostSem (σ : Type) where
  lookup : σ → String → Option Value
  apply : σ → Value → List Value → Option (Value × σ)

/-! ## Evaluation -/

/-- The binding an import declaration gives to the identifier `x`, if any. -/
def ImportDecl.resolve (d : ImportDecl) (x : String) : Option Value :=
  if d.defaultName == some x then some (.imported d.source "default")
  else if d.named.contains x then some (.imported d.source x)
  else none

/-- The import binding of `x` in the module, if any. -/
def Module.resolveImport (m : Module) (x : String) : Option Value :=
  m.imports.findSome? fun d => d.resolve x

/-- Identifier resolution inside a running call: parameters first, then the
module's import bindings, then the host. -/
def lookupIdent {σ : Type} (H : HostSem σ) (m : Module) (locals : List (String × Value))
    (s : σ) (x : String) : Option Value :=
  match locals.lookup x with
  | some v => some v
  | none =>
    match m.resolveImport x with
    | some v => some v
    | none => H.lookup s x

mutual
/-- Evaluation of an expression in host state `s`: the value and the state
after it. -/
def evalExpr {σ : Type} (H : HostSem σ) (m : Module) (locals : List (String × Value))
    (s : σ) : JSExpr → Option (Value × σ)
  | .str x => some (.str x, s)
  | .num n => some (.num n, s)
  | .obj fields =>
    match evalFields H m locals s fields with
    | none => none
    | some (vs, s1) => some (.obj vs, s1)
  | .ident x =>
    match lookupIdent H m locals s x with
    | none => none
    | some v => some (v, s)
  | .call callee args =>
    match evalExpr H m locals s callee with
    | none => none
    | some (f, s1) =>
      match evalArgs H m locals s1 args with
      | none => none
      | some (vs, s2) => H.apply s2 f vs
/-- Evaluation of the fields of an object literal, left to right. -/
def evalFields {σ : Type} (H : HostSem σ) (m : Module) (locals : List (String × Value))
    (s : σ) : List (String × JSExpr) → Option (List (String × Value) × σ)
  | [] => some ([], s)
  | (k, e) :: rest =>
    match evalExpr H m locals s e with
    | none => none
    | some (v, s1) =>
      match evalFields H m locals s1 rest with
      | none => none
      | some (vs, s2) => some ((k, v) :: vs, s2)
/-- Evaluation of the arguments of a call, left to right. -/
def evalArgs {σ : Type} (H : HostSem σ) (m : Module) (locals : List (String × Value))
    (s : σ) : List JSExpr → Option (List Value × σ)
  | [] => some ([], s)
  | e :: rest =>
    match evalExpr H m locals s e with
    | none => none
    | some (v, s1) =>
      match evalArgs H m locals s1 rest with
      | none => none
      | some (vs, s2) => some (v :: vs, s2)
end

/-- Evaluation of the attributes of an element, left to right, into props. -/
def evalAttrs {σ : Type} (H : HostSem σ) (m : Module) (locals : List (String × Value))
    (s : σ) : List (String × JSXAttrValue) → Option (List (String × Value) × σ)
  | [] => some ([], s)
  | (k, .lit x) :: rest =>
    match evalAttrs H m locals s rest with
    | none => none
    | some (ps, s1) => some ((k, .str x) :: ps, s1)
  | (k, .expr e) :: rest =>
    match evalExpr H m locals s e with
    | none => none
    | some (v, s1) =>
      match evalAttrs H m locals s1 rest with
      | none => none
      | some (ps, s2) => some ((k, v) :: ps, s2)

/-- A tag that starts with a lower-case letter names an element of the host
(`img`, `div`); any other tag is an identifier reference. -/
def isIntrinsicTag (tag : String) : Bool :=
  match tag.data with
  | [] => false
  | c :: _ => c.isLower

/-- The element type a tag stands for. -/
def resolveTag {σ : Type} (H : HostSem σ) (m : Module) (locals : List (String × Value))
    (s : σ) (tag : String) : Option Value :=
  if isIntrinsicTag tag then some (.str tag) else lookupIdent H m locals s tag

mutual
/-- Evaluation of a JSX node: the element type first, then the attributes,
then the children. -/
def evalNode {σ : Type} (H : HostSem σ) (m : Module) (locals : List (String × Value))
    (s : σ) : JSXNode → Option (Tree × σ)
  | .text t => some (.text t, s)
  | .expr e =>
    match evalExpr H m locals s e with
    | none => none
    | some (v, s1) => some (.value v, s1)
  | .element tag attrs children =>
    match resolveTag H m locals s tag with
    | none => none
    | some ty =>
      match evalAttrs H m locals s attrs with
      | none => none
      | some (props, s1) =>
        match evalChildren H m locals s1 children with
        | none => none
        | some (kids, s2) => some (.element tag ty props kids, s2)
/-- Evaluation of the children of an element, left to right. -/
def evalChildren {σ : Type} (H : HostSem σ) (m : Module) (locals : List (String × Value))
    (s : σ) : List JSXNode → Option (List Tree × σ)
  | [] => some ([], s)
  | c :: rest =>
    match evalNode H m locals s c with
    | none => none
    | some (t, s1) =>
      match evalChildren H m locals s1 rest with
      | none => none
      | some (ts, s2) => some (t :: ts, s2)
end

/-- Binding of parameters to the arguments of a call; a parameter without an
argument is `undefined`. -/
def bindParams : List String → List Value → List (String × Value)
  | [], _ => []
  | p :: ps, [] => (p, .undefined) :: bindParams ps []
  | p :: ps, a :: as => (p, a) :: bindParams ps as

/-- A call `f(args)` of a function of module `m` in host state `s`: the tree
returned and the host state after the call. -/
def callFunction {σ : Type} (H : HostSem σ) (m : Module) (f : FunctionDecl)
    (args : List Value) (s : σ) : Option (Tree × σ) :=
  evalNode H m (bindParams f.params args) s f.body

/-- The call `BlogCard()` in host state `s`. -/
def renderBlogCard {σ : Type} (H : HostSem σ) (s : σ) : Option (Tree × σ) :=
  callFunction H sample BlogCard [] s

/-- Repeated calls: `BlogCard()` called `n` times in a row, each call starting
in the host state the previous one left. -/
def renderTimes {σ : Type} (H : HostSem σ) : Nat → σ → Option (List Tree × σ)
  | 0, s => some ([], s)
  | n + 1, s =>
    match renderBlogCard H s with
    | none => none
    | some (t, s1) =>
      match renderTimes H n s1 with
      | none => none
      | some (ts, s2) => some (t :: ts, s2)

/-- A host with a single state, no global identifiers and no callable values. -/
def inertHost : HostSem Unit where
  lookup := fun _ _ => none
  apply := fun _ _ _ => none

/-! ## Loading the module -/

/-- Errors raised when a module is loaded. -/
inductive LoadError where
  | duplicateBinding (name : String)
  | unresolvedImport (source : String) (exportName : String)

/-- Local identifiers bound by an import declaration, in source order. -/
def ImportDecl.boundNames (d : ImportDecl) : List String :=
  d.defaultName.toList ++ d.named

/-- Local identifiers bound by the import declarations of a module. -/
def Module.importedNames (m : Module) : List String :=
  m.imports.flatMap ImportDecl.boundNames

/-- The first name of the list that occurs again later in it. -/
def firstDuplicate : List String → Option String
  | [] => none
  | x :: xs => if xs.contains x then some x else firstDuplicate xs

/-- The (module, export) pairs the import declarations ask the host for. -/
def Module.requests (m : Module) : List (String × String) :=
  m.imports.flatMap fun d =>
    (d.defaultName.toList.map fun _ => (d.source, "default")) ++ d.named.map fun x => (d.source, x)

/-- Loading a module against a host that provides the exports `provides`:
binding a local identifier twice is an early error; an export the host does
not provide is a link error. -/
def Module.load (m : Module) (provides : String → String → Bool) : Except LoadError Unit :=
  match firstDuplicate m.importedNames with
  | some x => .error (.duplicateBinding x)
  | none =>
    match m.requests.find? fun r => !provides r.1 r.2 with
    | some r => .error (.unresolvedImport r.1 r.2)
    | none => .ok ()

/-- Loading `sample.js` and then calling `BlogCard()`. -/
def loadAndRender {σ : Type} (H : HostSem σ) (provides : String → String → Bool) (s : σ) :
    Except LoadError (Option (Tree × σ)) :=
  match sample.load provides with
  | .error e => .error e
  | .ok _ => .ok (renderBlogCard H s)

/-! ## Observations on the source -/

mutual
/-- A JSX node and all its descendants, in document order. -/
def JSXNode.nodes : JSXNode → List JSXNode
  | .element tag attrs children => .element tag attrs children :: JSXNode.nodesOfList children
  | .text t => [.text t]
  | .expr e => [.expr e]
/-- The nodes of a list of JSX nodes, in document order. -/
def JSXNode.nodesOfList : List JSXNode → List JSXNode
  | [] => []
  | c :: rest => c.nodes ++ JSXNode.nodesOfList rest
end

/-- The tags of the elements of a JSX expression, in document order. -/
def JSXNode.tags (n : JSXNode) : List String :=
  n.nodes.filterMap fun c =>
    match c with
    | .element tag _ _ => some tag
    | _ => none

mutual
/-- Identifiers an expression refers to. -/
def JSExpr.idents : JSExpr → List String
  | .str _ => []
  | .num _ => []
  | .obj fields => JSExpr.identsOfFields fields
  | .ident x => [x]
  | .call callee args => callee.idents ++ JSExpr.identsOfList args
/-- Identifiers the fields of an object literal refer to. -/
def JSExpr.identsOfFields : List (String × JSExpr) → List String
  | [] => []
  | (_, e) :: rest => e.idents ++ JSExpr.identsOfFields rest
/-- Identifiers a list of expressions refers to. -/
def JSExpr.identsOfList : List JSExpr → List String
  | [] => []
  | e :: rest => e.idents ++ JSExpr.identsOfList rest
end

/-- Identifiers the expression containers of one node refer to (those of its
attributes for an element, its own for a container child). -/
def JSXNode.ownExprIdents : JSXNode → List String
  | .element _ attrs _ =>
    attrs.flatMap fun a =>
      match a.2 with
      | .lit _ => []
      | .expr e => e.idents
  | .text _ => []
  | .expr e => e.idents

/-- Identifiers referred to by the expression containers of a JSX expression. -/
def JSXNode.exprIdents (n : JSXNode) : List String :=
  n.nodes.flatMap JSXNode.ownExprIdents

/-- A prop value written as a literal: a string, a number, or an object
literal whose fields are all string literals. -/
def JSExpr.isLiteralProp : JSExpr → Bool
  | .str _ => true
  | .num _ => true
  | .obj fields =>
    fields.all fun f =>
      match f.2 with
      | .str _ => true
      | _ => false
  | .ident _ => false
  | .call _ _ => false

/-- An attribute whose value is a literal. -/
def JSXAttrValue.isLiteral : JSXAttrValue → Bool
  | .lit _ => true
  | .expr e => e.isLiteralProp

/-- A node all of whose own content is literal: an element whose attributes
are all literal, or a text node; an expression-container child is not. -/
def JSXNode.ownContentLiteral : JSXNode → Bool
  | .element _ attrs _ => attrs.all fun a => a.2.isLiteral
  | .text _ => true
  | .expr _ => false

/-! ## Observations on element trees -/

/-- Props of an element (none for other nodes). -/
def Tree.props : Tree → List (String × Value)
  | .element _ _ props _ => props
  | _ => []

/-- Children of an element (none for other nodes). -/
def Tree.children : Tree → List Tree
  | .element _ _ _ kids => kids
  | _ => []

/-- The node is an element written with tag `name`. -/
def Tree.isElement (name : String) : Tree → Bool
  | .element tag _ _ _ => tag == name
  | _ => false

/-- The node is the text `s`. -/
def Tree.isText (s : String) : Tree → Bool
  | .text x => x == s
  | _ => false

mutual
/-- A tree node and all its descendants, in document order. -/
def Tree.nodes : Tree → List Tree
  | .element tag ty props kids => .element tag ty props kids :: Tree.nodesOfList kids
  | .text s => [.text s]
  | .value v => [.value v]
/-- The nodes of a list of trees, in document order. -/
def Tree.nodesOfList : List Tree → List Tree
  | [] => []
  | t :: ts => t.nodes ++ Tree.nodesOfList ts
end

/-- The elements with tag `name` in the tree, in document order. -/
def Tree.elementsNamed (name : String) (t : Tree) : List Tree :=
  t.nodes.filter (Tree.isElement name)

/-- Number of elements with tag `name` in the tree, the root included. -/
def Tree.countTag (name : String) (t : Tree) : Nat :=
  (t.elementsNamed name).length

/-- Number of text nodes equal to `s` in the tree. -/
def Tree.countText (s : String) (t : Tree) : Nat :=
  (t.nodes.filter (Tree.isText s)).length

/-- The value is the string `s`. -/
def Value.isStr (s : String) : Value → Bool
  | .str x => x == s
  | _ => false

/-- The value is a string. -/
def Value.isString : Value → Bool
  | .str _ => true
  | _ => false

/-- Number of elements of the tree whose prop `key` is the string `s`. -/
def Tree.countProp (key s : String) (t : Tree) : Nat :=
  (t.nodes.filter fun n =>
    match n.props.lookup key with
    | some v => v.isStr s
    | none => false).length

/-- Number of props, over all elements of the tree and whatever their name,
whose value is the string `s`. -/
def Tree.countStrProps (s : String) (t : Tree) : Nat :=
  ((t.nodes.flatMap Tree.props).filter fun p => p.2.isStr s).length

/-- Number of places where the tree renders `s` as a label or icon: the text
nodes equal to `s` and the `aria-label` attributes equal to `s`. -/
def Tree.labelCount (s : String) (t : Tree) : Nat :=
  t.countText s + t.countProp "aria-label" s

/-- The element has the text `s` among its children. -/
def Tree.carriesText (s : String) (t : Tree) : Bool :=
  t.children.any (Tree.isText s)

mutual
/-- The value is, or holds in one of its fields, something that can be a
function: a function of the host or the value of an import binding. -/
def Value.holdsFunction : Value → Bool
  | .func _ => true
  | .imported _ _ => true
  | .obj fields => Value.fieldsHoldFunction fields
  | _ => false
/-- One of the fields holds something that can be a function. -/
def Value.fieldsHoldFunction : List (String × Value) → Bool
  | [] => false
  | (_, v) :: rest => v.holdsFunction || Value.fieldsHoldFunction rest
end

/-- The prop name is that of an event handler: it starts with `on`. -/
def isHandlerName (name : String) : Bool :=
  List.isPrefixOf "on".data name.data

/-- The node has an event-handler prop or a prop that holds a function. -/
def Tree.hasHandler (t : Tree) : Bool :=
  t.props.any fun p => isHandlerName p.1 || p.2.holdsFunction

/-- The title text of the source. -/
def titleText : String :=
  "Green plants are going to extinct about 500 times faster than they should, study finds"

/-- The element tree denoted by the JSX expression that `BlogCard` returns
(`renderBlogCard_eq` proves that every call evaluates to it). -/
def blogCardTree : Tree :=
  .element "Card" (.imported "@mui/material" "Card")
    [("sx", .obj [("width", .str "900px"), ("height", .str "360px"), ("display", .str "grid"),
        ("placeItems", .str "center"), ("borderRadius", .str "20px")])]
    [.element "Stack" (.imported "@mui/material" "Stack")
      [("margin", .num 1), ("spacing", .num 2), ("direction", .str "row"),
       ("sx", .obj [("alignItems", .str "center"), ("width", .str "calc(100% - 1rem)"),
          ("height", .str "calc(100% - 1rem)")])]
      [.element "CardMedia" (.imported "@mui/material" "CardMedia")
        [("component", .str "img"),
         ("src", .str "https://images.unsplash.com/photo-1505807557511-bc38492556a6"),
         ("alt", .str "leaves"),
         ("sx", .obj [("height", .str "340px"), ("borderRadius", .str "16px"),
            ("aspectRatio", .str "4/3")])]
        [],
       .element "Stack" (.imported "@mui/material" "Stack")
        [("sx", .obj [("height", .str "100%"), ("justifyContent", .str "space-around")])]
        [.element "CardContent" (.imported "@mui/material" "CardContent") []
          [.element "Stack" (.imported "@mui/material" "Stack") [("spacing", .num 2)]
            [.element "Typography" (.imported "@mui/material" "Typography")
              [("fontWeight", .num 600), ("fontSize", .str "1.3rem")]
              [.text titleText],
             .element "Typography" (.imported "@mui/material" "Typography") []
              [.text "Lorem ipsum dolor sit amet, consectetur adipiscing elit. Aenean sit amet efficitur sem, id blandit justo."]]],
         .element "Stack" (.imported "@mui/material" "Stack")
          [("direction", .str "row"), ("sx", .obj [("justifyContent", .str "space-between")])]
          [.element "AuthorDetails" (.imported "./AuthorDetails" "default")
            [("authorImageSource", .str "https://images.unsplash.com/photo-1494790108377-be9c29b29330"),
             ("authorName", .str "Remy Sharp"),
             ("dateOfPublication", .str "July 22, 2022")]
            [],
           .element "CardActions" (.imported "@mui/material" "CardActions") []
            [.element "IconButton" (.imported "@mui/material" "IconButton")
              [("aria-label", .str "share")]
              [.element "Icon" (.imported "@mui/material" "Icon") [] [.text "share"]]]]]]]

/-! ## Theorems -/

/-- Every call of `BlogCard()`, with any host and in any host state, returns
`blogCardTree` and leaves the host state as it was. -/
theorem renderBlogCard_eq {σ : Type} (H : HostSem σ) (s : σ) :
    renderBlogCard H s = some (blogCardTree, s) := rfl

/-- Calling `BlogCard()` `n` times in a row returns `blogCardTree` each time
and leaves the host state as it was. -/
theorem renderTimes_eq {σ : Type} (H : HostSem σ) (n : Nat) (s : σ) :
    renderTimes H n s = some (List.replicate n blogCardTree, s) := by
  induction n with
  | zero => rfl
  | succ k ih => simp [renderTimes, renderBlogCard_eq, ih, List.replicate_succ]

/-- Evaluation does read the host where the source refers to it: a container
child `{label}` evaluates to whatever the host holds for `label`, and to an
error when the host holds nothing. The literal body of `BlogCard` has no such
container. -/
theorem evalNode_ident_reads_host (v : Value) :
    evalNode (σ := Unit) ⟨fun _ _ => some v, fun _ _ _ => none⟩ sample [] ()
        (.element "Icon" [] [.expr (.ident "label")]) =
      some (.element "Icon" (.imported "@mui/material" "Icon") [] [.value v], ()) ∧
    evalNode inertHost sample [] () (.element "Icon" [] [.expr (.ident "label")]) = none :=
  ⟨rfl, rfl⟩

/-- C1: the tree returned by `BlogCard()` has one root, a `Card` (the only
`Card` of the tree); the tree has exactly one `CardMedia` element; the `Card`
has one child, a `Stack`, whose children are exactly the `CardMedia` and the
content-column `Stack`, in this order. -/
theorem blogCard_single_card_media_column {σ : Type} (H : HostSem σ) (s : σ) :
    ∃ t, renderBlogCard H s = some (t, s) ∧
      t.isElement "Card" = true ∧ t.countTag "Card" = 1 ∧ t.countTag "CardMedia" = 1 ∧
      ∃ row media column, t.children = [row] ∧ row.isElement "Stack" = true ∧
        row.children = [media, column] ∧ t.elementsNamed "CardMedia" = [media] ∧
        column.isElement "Stack" = true ∧
        ∃ content footer, column.children = [content, footer] ∧
          content.isElement "CardContent" = true :=
  ⟨blogCardTree, renderBlogCard_eq H s, rfl, rfl, rfl, _, _, _, rfl, rfl, rfl, rfl, rfl,
    _, _, rfl, rfl⟩

/-- C2: in the tree returned by `BlogCard()` the first `Typography` element,
the one with props `fontWeight = 600` and `fontSize = "1.3rem"`, has exactly
one child, the text node `titleText`; it is the only element of the tree that
has this text among its children, the tree has one such text node, and no
prop of any element has this text as its value. -/
theorem blogCard_title_text {σ : Type} (H : HostSem σ) (s : σ) :
    ∃ t, renderBlogCard H s = some (t, s) ∧
      ∃ title excerpt, t.elementsNamed "Typography" = [title, excerpt] ∧
        title.props = [("fontWeight", .num 600), ("fontSize", .str "1.3rem")] ∧
        title.children =
          [.text "Green plants are going to extinct about 500 times faster than they should, study finds"] ∧
        t.nodes.filter (Tree.carriesText titleText) = [title] ∧
        t.countText titleText = 1 ∧ t.countStrProps titleText = 0 :=
  ⟨blogCardTree, renderBlogCard_eq H s, _, _, rfl, rfl, rfl, rfl, rfl, rfl⟩

/-- C3: the tree returned by `BlogCard()` has exactly one `AuthorDetails`
element; its element type is the default export of `./AuthorDetails`; it has
exactly three props, all strings: `authorName = "Remy Sharp"`,
`authorImageSource` = the avatar URL and `dateOfPublication = "July 22, 2022"`;
it has no children. -/
theorem blogCard_author_details_props {σ : Type} (H : HostSem σ) (s : σ) :
    ∃ t, renderBlogCard H s = some (t, s) ∧ t.countTag "AuthorDetails" = 1 ∧
      ∃ author props, t.elementsNamed "AuthorDetails" = [author] ∧
        author = .element "AuthorDetails" (.imported "./AuthorDetails" "default") props [] ∧
        props.length = 3 ∧ props.all (fun p => p.2.isString) = true ∧
        props.lookup "authorName" = some (.str "Remy Sharp") ∧
        props.lookup "authorImageSource" =
          some (.str "https://images.unsplash.com/photo-1494790108377-be9c29b29330") ∧
        props.lookup "dateOfPublication" = some (.str "July 22, 2022") ∧
        author.children = [] :=
  ⟨blogCardTree, renderBlogCard_eq H s, rfl, _, _, rfl, rfl, rfl, rfl, rfl, rfl, rfl, rfl⟩

/-- C4: in the tree returned by `BlogCard()` the single `CardMedia` element
has `src` = the image URL of the source, `alt = "leaves"` and
`component = "img"`, and its `src` is not the avatar URL that the
`AuthorDetails` element gets as `authorImageSource`. -/
theorem blogCard_media_src_alt {σ : Type} (H : HostSem σ) (s : σ) :
    ∃ t, renderBlogCard H s = some (t, s) ∧
      ∃ media author avatar, t.elementsNamed "CardMedia" = [media] ∧
        media.props.lookup "src" =
          some (.str "https://images.unsplash.com/photo-1505807557511-bc38492556a6") ∧
        media.props.lookup "alt" = some (.str "leaves") ∧
        media.props.lookup "component" = some (.str "img") ∧
        t.elementsNamed "AuthorDetails" = [author] ∧
        author.props.lookup "authorImageSource" = some (.str avatar) ∧
        avatar ≠ "https://images.unsplash.com/photo-1505807557511-bc38492556a6" :=
  ⟨blogCardTree, renderBlogCard_eq H s, _, _, _, rfl, rfl, rfl, rfl, rfl, rfl, by decide⟩

/-- C5, as stated, fails: in the tree returned by `BlogCard()` (inert host)
the places where `share` is rendered as a label or icon, text nodes and
`aria-label` attributes together, are 2 in number, not 1. -/
theorem blogCard_share_label_count_ne_one :
    (renderBlogCard inertHost ()).map (fun r => r.1.labelCount "share") = some 2 ∧
      ¬ ∃ t, renderBlogCard inertHost () = some (t, ()) ∧ t.labelCount "share" = 1 := by
  refine ⟨rfl, ?_⟩
  rintro ⟨t, ht, hc⟩
  rw [renderBlogCard_eq] at ht
  injection ht with ht
  injection ht with ht
  subst ht
  revert hc
  decide

/-- C5, amended: the tree returned by `BlogCard()` has exactly one
`IconButton` and exactly one `Icon`; the `Icon` is the only child of the
`IconButton` and its only child is the text `share`; the text `share` occurs
once in the tree, as that icon name, and the string `share` is the value of
exactly one prop, the `aria-label` of the `IconButton`: two places in all. -/
theorem blogCard_share_label_and_icon {σ : Type} (H : HostSem σ) (s : σ) :
    ∃ t, renderBlogCard H s = some (t, s) ∧
      t.countTag "IconButton" = 1 ∧ t.countTag "Icon" = 1 ∧
      (∃ button icon, t.elementsNamed "IconButton" = [button] ∧
        t.elementsNamed "Icon" = [icon] ∧ button.children = [icon] ∧
        icon.children = [.text "share"] ∧
        button.props.lookup "aria-label" = some (.str "share")) ∧
      t.countText "share" = 1 ∧ t.countProp "aria-label" "share" = 1 ∧
      t.countStrProps "share" = 1 ∧ t.labelCount "share" = 2 :=
  ⟨blogCardTree, renderBlogCard_eq H s, rfl, rfl, ⟨_, _, rfl, rfl, rfl, rfl, rfl⟩,
    rfl, rfl, rfl, rfl⟩

/-- C6, evaluated on the code: the import declarations of `sample.js` bind
`Stack` (and `Typography`) more than once, so loading the module fails with a
duplicate-binding error, also with a host that provides every export; every
tag used in the tree is bound by an import. -/
theorem sample_load_duplicate_binding {σ : Type} (H : HostSem σ) (s : σ) :
    loadAndRender H (fun _ _ => true) s = .error (.duplicateBinding "Stack") ∧
      ¬ sample.importedNames.Nodup ∧
      sample.importedNames.count "Stack" = 4 ∧ sample.importedNames.count "Typography" = 2 ∧
      BlogCard.body.tags.all (fun tag => sample.importedNames.contains tag) = true :=
  ⟨rfl, by decide, by decide, by decide, rfl⟩

/-- C7: in the tree returned by `BlogCard()` the `Card` has one child, a
`Stack` with `direction = "row"` holding the `CardMedia` and the content
column; the content column is a `Stack` with two children: a `CardContent`
whose only child is a `Stack` of two `Typography` elements (title, then
excerpt), and a `Stack` with `direction = "row"` of two children, the
`AuthorDetails` element and then the `CardActions`, whose only child is the
`IconButton` labelled `share`. -/
theorem blogCard_layout {σ : Type} (H : HostSem σ) (s : σ) :
    ∃ t, renderBlogCard H s = some (t, s) ∧ t.isElement "Card" = true ∧
      ∃ row media column, t.children = [row] ∧ row.isElement "Stack" = true ∧
        row.props.lookup "direction" = some (.str "row") ∧
        row.children = [media, column] ∧ media.isElement "CardMedia" = true ∧
        column.isElement "Stack" = true ∧
      ∃ content footer, column.children = [content, footer] ∧
        content.isElement "CardContent" = true ∧
      ∃ texts title excerpt, content.children = [texts] ∧ texts.isElement "Stack" = true ∧
        texts.children = [title, excerpt] ∧ title.isElement "Typography" = true ∧
        title.children = [.text titleText] ∧ excerpt.isElement "Typography" = true ∧
        excerpt.children = [.text "Lorem ipsum dolor sit amet, consectetur adipiscing elit. Aenean sit amet efficitur sem, id blandit justo."] ∧
      footer.isElement "Stack" = true ∧ footer.props.lookup "direction" = some (.str "row") ∧
      ∃ author actions button, footer.children = [author, actions] ∧
        author.isElement "AuthorDetails" = true ∧ actions.isElement "CardActions" = true ∧
        actions.children = [button] ∧ button.isElement "IconButton" = true ∧
        button.props.lookup "aria-label" = some (.str "share") :=
  ⟨blogCardTree, renderBlogCard_eq H s, rfl, _, _, _, rfl, rfl, rfl, rfl, rfl, rfl,
    _, _, rfl, rfl, _, _, _, rfl, rfl, rfl, rfl, rfl, rfl, rfl, rfl, rfl,
    _, _, _, rfl, rfl, rfl, rfl, rfl, rfl⟩

/-- C8: in the tree returned by `BlogCard()` the props of the only
`IconButton` are exactly `aria-label = "share"`, and no element of the tree
has a prop whose name starts with `on` or whose value is, or holds, a
function. -/
theorem blogCard_share_no_handler {σ : Type} (H : HostSem σ) (s : σ) :
    ∃ t, renderBlogCard H s = some (t, s) ∧
      (∃ button, t.elementsNamed "IconButton" = [button] ∧
        button.props = [("aria-label", .str "share")]) ∧
      t.nodes.any Tree.hasHandler = false :=
  ⟨blogCardTree, renderBlogCard_eq H s, ⟨_, rfl, rfl⟩, rfl⟩

/-- C9: `BlogCard` has no parameter, its expression containers refer to no
identifier, and every tag of its body is bound by an import declaration of the
module; there is one tree that every call of `BlogCard()` returns, whatever
the host and the host state, and the call leaves the host state as it was; so
any number of calls in a row return that same tree each time. -/
theorem blogCard_pure_idempotent :
    BlogCard.params = [] ∧ BlogCard.body.exprIdents = [] ∧
      BlogCard.body.tags.all (fun tag => (sample.resolveImport tag).isSome) = true ∧
      ∃ t : Tree, ∀ (σ : Type) (H : HostSem σ) (s : σ),
        renderBlogCard H s = some (t, s) ∧
        ∀ n : Nat, renderTimes H n s = some (List.replicate n t, s) :=
  ⟨rfl, rfl, rfl, blogCardTree, fun _ H s => ⟨renderBlogCard_eq H s, fun n => renderTimes_eq H n s⟩⟩

/-- C10: `BlogCard` takes no parameter, and in the JSX expression it returns
every attribute value is a string literal, a number literal or an object
literal whose fields are all string literals, every child that is not an
element is a text node, and no expression container refers to an identifier. -/
theorem blogCard_all_literal :
    BlogCard.params = [] ∧ BlogCard.body.nodes.all JSXNode.ownContentLiteral = true ∧
      BlogCard.body.exprIdents = [] :=
  ⟨rfl, rfl, rfl⟩

end Transpiler
